import Mathlib

set_option autoImplicit false

/-! Shallow embedding of the FixIt ticket backend: the status transition
engine (`app/business_logic.py`), the ticket CRUD layer (`app/crud.py`),
the HTTP-level update and bulk-update handlers (`app/main.py`), and the
token-resolution dependencies (`app/auth.py`).  Timestamps are modelled
as natural numbers; each top-level operation receives the current time
as an explicit `now` argument standing for `datetime.utcnow()`. -/

/-- `TicketStatus` enumeration from `app/models.py`. -/
inductive TicketStatus where
  | pending
  | diagnosed
  | in_progress
  | waiting_parts
  | completed
  | ready_pickup
  | delivered
  | cancelled
deriving DecidableEq, Repr, Fintype

/-- The `.value` string of each enum member (`app/models.py`). -/
def TicketStatus.value : TicketStatus → String
  | .pending => "pending"
  | .diagnosed => "diagnosed"
  | .in_progress => "in_progress"
  | .waiting_parts => "waiting_parts"
  | .completed => "completed"
  | .ready_pickup => "ready_pickup"
  | .delivered => "delivered"
  | .cancelled => "cancelled"

/-- The transition table `VALID_STATUS_TRANSITIONS` from
`app/business_logic.py`, lines 11 to 44. -/
def VALID_STATUS_TRANSITIONS : TicketStatus → List TicketStatus
  | .pending => [.diagnosed, .in_progress, .cancelled]
  | .diagnosed => [.in_progress, .waiting_parts, .completed, .ready_pickup, .cancelled]
  | .in_progress => [.waiting_parts, .completed, .ready_pickup, .cancelled]
  | .waiting_parts => [.in_progress, .cancelled]
  | .completed => [.ready_pickup, .delivered]
  | .ready_pickup => [.delivered, .in_progress]
  | .delivered => []
  | .cancelled => []

/-- `is_valid_status_transition` from `app/business_logic.py`. -/
def is_valid_status_transition (current_status new_status : TicketStatus) : Bool :=
  if current_status = new_status then true
  else (VALID_STATUS_TRANSITIONS current_status).contains new_status

/-- `get_valid_next_statuses` from `app/business_logic.py`. -/
def get_valid_next_statuses (current_status : TicketStatus) : List TicketStatus :=
  VALID_STATUS_TRANSITIONS current_status

/-- `validate_status_transition` from `app/business_logic.py`: `none` when
valid, otherwise the error message string built by the source. -/
def validate_status_transition (current_status new_status : TicketStatus) : Option String :=
  if ¬ is_valid_status_transition current_status new_status then
    let valid_next := get_valid_next_statuses current_status
    if valid_next.isEmpty then
      some ("Ticket in \x27" ++ current_status.value ++
        "\x27 status cannot be changed (final state)")
    else
      some ("Cannot transition from \x27" ++ current_status.value ++ "\x27 to \x27" ++
        new_status.value ++ "\x27. Valid next statuses: " ++
        String.intercalate ", " (valid_next.map TicketStatus.value))
  else
    none

/-- `validate_priority` from `app/business_logic.py`. -/
def validate_priority (priority : String) : Bool :=
  ["low", "normal", "high", "urgent"].contains priority.toLower

/-- The adjacency table exactly as enumerated by the specification,
section 4.1, used to compare the code table against the spec table. -/
def spec_adjacency : TicketStatus → List TicketStatus
  | .pending => [.diagnosed, .in_progress, .cancelled]
  | .diagnosed => [.in_progress, .waiting_parts, .completed, .ready_pickup, .cancelled]
  | .in_progress => [.waiting_parts, .completed, .ready_pickup, .cancelled]
  | .waiting_parts => [.in_progress, .cancelled]
  | .completed => [.ready_pickup, .delivered]
  | .ready_pickup => [.delivered, .in_progress]
  | .delivered => []
  | .cancelled => []

/-- Ticket row (`app/models.py`, class `Ticket`).  Costs are stored
numbers with no arithmetic performed on them in the modelled paths. -/
structure Ticket where
  ticket_id : Nat
  customer_id : Nat
  device_id : Nat
  status : TicketStatus
  priority : String
  estimated_cost : Option Int
  actual_cost : Option Int
  notes : Option String
  created_at : Nat
  updated_at : Nat
  completed_at : Option Nat
deriving DecidableEq, Repr

/-- TicketHistory row (`app/models.py`, class `TicketHistory`). -/
structure TicketHistory where
  ticket_id : Nat
  old_status : Option TicketStatus
  new_status : TicketStatus
  changed_by : String
  notes : Option String
  changed_at : Nat
deriving DecidableEq, Repr

/-- CustomerNotification row (`app/models.py`); `is_read` is the 0/1
integer column (0 = unread). -/
structure CustomerNotification where
  customer_id : Nat
  ticket_id : Nat
  message : String
  is_read : Nat
  created_at : Nat
deriving DecidableEq, Repr

/-- The portions of the relational store touched by the modelled ticket
operations. -/
structure DBState where
  tickets : List Ticket
  history : List TicketHistory
  notifications : List CustomerNotification
deriving DecidableEq, Repr

/-- `crud.get_ticket`: first ticket whose primary key matches. -/
def get_ticket (db : DBState) (ticket_id : Nat) : Option Ticket :=
  db.tickets.find? (fun t => t.ticket_id == ticket_id)

/-- ORM commit of a mutated ticket object: replaces the first row with
the same primary key (the row `get_ticket` fetched). -/
def set_ticket : List Ticket → Ticket → List Ticket
  | [], _ => []
  | t :: ts, t2 => if t.ticket_id == t2.ticket_id then t2 :: ts else t :: set_ticket ts t2

/-- Python `changed_by or "system"` (`app/crud.py`, line 195): falsy
values, absent or empty, become `"system"`. -/
def orSystem : Option String → String
  | none => "system"
  | some s => if s.isEmpty then "system" else s

/-- `crud.create_ticket_history`: appends one history row. -/
def create_ticket_history (db : DBState) (ticket_id : Nat)
    (old_status : Option TicketStatus) (new_status : TicketStatus)
    (changed_by : Option String) (notes : Option String) (now : Nat) :
    TicketHistory × DBState :=
  let history_entry : TicketHistory :=
    { ticket_id := ticket_id
      old_status := old_status
      new_status := new_status
      changed_by := orSystem changed_by
      notes := notes
      changed_at := now }
  (history_entry, { db with history := db.history ++ [history_entry] })

/-- `crud.update_ticket_status` (`app/crud.py`, lines 204 to 235): sets
the status unconditionally, bumps `updated_at`, sets `completed_at`
whenever the new status is completed or delivered, and appends a history
row when the status actually changed.  Returns `none` when the ticket is
not found, leaving the store untouched. -/
def update_ticket_status (db : DBState) (ticket_id : Nat) (status : TicketStatus)
    (changed_by : Option String) (notes : Option String) (now : Nat) :
    Option Ticket × DBState :=
  match get_ticket db ticket_id with
  | none => (none, db)
  | some db_ticket =>
    let old_status := db_ticket.status
    let t2 : Ticket :=
      { db_ticket with
        status := status
        updated_at := now
        completed_at :=
          if status = .completed ∨ status = .delivered then some now
          else db_ticket.completed_at }
    let db2 : DBState := { db with tickets := set_ticket db.tickets t2 }
    let db3 : DBState :=
      if old_status ≠ status then
        (create_ticket_history db2 ticket_id (some old_status) status changed_by notes now).2
      else db2
    (some t2, db3)

/-- `schemas.TicketUpdate`: every field optional; `none` means the field
was absent from the request. -/
structure TicketUpdate where
  status : Option TicketStatus
  priority : Option String
  estimated_cost : Option Int
  actual_cost : Option Int
  notes : Option String
deriving DecidableEq, Repr

/-- The field application loop of `crud.update_ticket` plus its
`updated_at` bump and conditional `completed_at` stamp (`app/crud.py`,
lines 253 to 266): provided fields overwrite, absent fields are kept. -/
def apply_ticket_update (t : Ticket) (tu : TicketUpdate) (now : Nat) : Ticket :=
  { t with
    status := tu.status.getD t.status
    priority := tu.priority.getD t.priority
    estimated_cost := match tu.estimated_cost with
      | some v => some v
      | none => t.estimated_cost
    actual_cost := match tu.actual_cost with
      | some v => some v
      | none => t.actual_cost
    notes := match tu.notes with
      | some v => some v
      | none => t.notes
    updated_at := now
    completed_at := match tu.status with
      | some s => if s = .completed ∨ s = .delivered then some now else t.completed_at
      | none => t.completed_at }

/-- `crud.update_ticket` (`app/crud.py`, lines 238 to 282): partial
field update, then a history row when a provided status differs from the
old one.  The actor is passed through to the history row; the note
recorded is `ticket_update.notes`. -/
def update_ticket (db : DBState) (ticket_id : Nat) (ticket_update : TicketUpdate)
    (changed_by : Option String) (now : Nat) : Option Ticket × DBState :=
  match get_ticket db ticket_id with
  | none => (none, db)
  | some db_ticket =>
    let old_status := db_ticket.status
    let t2 := apply_ticket_update db_ticket ticket_update now
    let db2 : DBState := { db with tickets := set_ticket db.tickets t2 }
    let db3 : DBState :=
      match ticket_update.status with
      | some s =>
        if old_status ≠ s then
          (create_ticket_history db2 ticket_id (some old_status) s changed_by
            ticket_update.notes now).2
        else db2
      | none => db2
    (some t2, db3)

/-- `crud.bulk_update_ticket_status` (`app/crud.py`, lines 385 to 402):
applies `update_ticket_status` to each id independently and counts the
calls that returned a ticket. -/
def bulk_update_ticket_status : DBState → List Nat → TicketStatus → Option String → Nat →
    Nat × DBState
  | db, [], _, _, _ => (0, db)
  | db, ticket_id :: rest, new_status, changed_by, now =>
    let r := update_ticket_status db ticket_id new_status changed_by none now
    let rr := bulk_update_ticket_status r.2 rest new_status changed_by now
    ((if r.1.isSome then 1 else 0) + rr.1, rr.2)

/-- `schemas.BulkUpdateResponse`. -/
structure BulkUpdateResponse where
  updated_count : Nat
  requested_count : Nat
  success : Bool
  message : String
deriving DecidableEq, Repr

/-- The `PATCH /api/v1/tickets/ticket_id` handler, `update_ticket` in
`app/main.py`, lines 373 to 429 (prefixed `main_` here to distinguish it
from the crud function of the same name): 404 when absent, then
transition validation, then priority validation, then
`crud.update_ticket` (called without an actor), then a notification when
the provided status differs from the old one. -/
def main_update_ticket (db : DBState) (ticket_id : Nat) (ticket_update : TicketUpdate)
    (now : Nat) : Except String Ticket × DBState :=
  match get_ticket db ticket_id with
  | none => (.error ("Ticket " ++ toString ticket_id ++ " not found"), db)
  | some db_ticket =>
    let transition_error : Option String :=
      match ticket_update.status with
      | some s => validate_status_transition db_ticket.status s
      | none => none
    match transition_error with
    | some err => (.error err, db)
    | none =>
      let priority_ok : Bool :=
        match ticket_update.priority with
        | some p => validate_priority p
        | none => true
      if ¬ priority_ok then
        (.error "Invalid priority. Must be one of: low, normal, high, urgent", db)
      else
        let old_status := db_ticket.status
        let r := update_ticket db ticket_id ticket_update none now
        match r.1 with
        | none => (.error ("Ticket " ++ toString ticket_id ++ " not found"), r.2)
        | some updated_ticket =>
          match ticket_update.status with
          | some s =>
            if s ≠ old_status then
              let notification_message :=
                "Your ticket #" ++ toString ticket_id ++
                " status has been updated from \x27" ++ old_status.value ++
                "\x27 to \x27" ++ s.value ++ "\x27."
              let notification : CustomerNotification :=
                { customer_id := updated_ticket.customer_id
                  ticket_id := ticket_id
                  message := notification_message
                  is_read := 0
                  created_at := now }
              (.ok updated_ticket,
                { r.2 with notifications := r.2.notifications ++ [notification] })
            else (.ok updated_ticket, r.2)
          | none => (.ok updated_ticket, r.2)

/-- The `POST /api/v1/admin/tickets/bulk-update` handler,
`bulk_update_tickets` in `app/main.py`, lines 502 to 525. -/
def main_bulk_update_tickets (db : DBState) (ticket_ids : List Nat)
    (new_status : TicketStatus) (changed_by : Option String) (now : Nat) :
    BulkUpdateResponse × DBState :=
  let r := bulk_update_ticket_status db ticket_ids new_status changed_by now
  ({ updated_count := r.1
     requested_count := ticket_ids.length
     success := decide (0 < r.1)
     message := "Successfully updated " ++ toString r.1 ++ " out of " ++
       toString ticket_ids.length ++ " tickets" }, r.2)

/-- Admin row (`app/models.py`, class `Admin`); `is_active` is the 0/1
integer column. -/
structure Admin where
  admin_id : Nat
  username : String
  email : String
  hashed_password : String
  full_name : String
  is_active : Nat
deriving DecidableEq, Repr

/-- Customer row (`app/models.py`, class `Customer`). -/
structure Customer where
  customer_id : Nat
  name : String
  email : String
  phone : String
  hashed_password : Option String
  is_active : Nat
deriving DecidableEq, Repr

/-- The identity store both token resolvers read at call time. -/
structure AuthDB where
  admins : List Admin
  customers : List Customer
deriving DecidableEq, Repr

/-- A successfully decoded JWT payload: the claims the resolvers read.
`none` at the payload level (below) stands for a token whose decode or
signature or expiry check failed. -/
structure TokenPayload where
  sub : Option String
  type : Option String
deriving DecidableEq, Repr

/-- Uniform rejection message used by both resolvers (`app/auth.py`). -/
def credentials_exception : String := "Could not validate credentials"

/-- `auth.get_current_admin` (`app/auth.py`, lines 105 to 142) after
decoding: reads `sub`, looks the admin up by username, and returns it.
The `type` claim is never read and `is_active` is never checked. -/
def get_current_admin (db : AuthDB) (payload : Option TokenPayload) :
    Except String Admin :=
  match payload with
  | none => .error credentials_exception
  | some p =>
    match p.sub with
    | none => .error credentials_exception
    | some username =>
      match db.admins.find? (fun a => a.username == username) with
      | none => .error credentials_exception
      | some admin => .ok admin

/-- `auth.get_current_customer` (`app/auth.py`, lines 166 to 207) after
decoding: reads `sub` and `type` (defaulting a missing `type` to
`"customer"`), rejects a non-customer type, looks the customer up by
email, and returns it.  `is_active` is never checked. -/
def get_current_customer (db : AuthDB) (payload : Option TokenPayload) :
    Except String Customer :=
  match payload with
  | none => .error credentials_exception
  | some p =>
    let user_type := p.type.getD "customer"
    match p.sub with
    | none => .error credentials_exception
    | some email =>
      if user_type ≠ "customer" then .error credentials_exception
      else
        match db.customers.find? (fun c => c.email == email) with
        | none => .error credentials_exception
        | some customer => .ok customer

/-- Payload of a token issued at admin login (`app/main.py`, line 153):
`sub` is the username and no `type` claim is set. -/
def admin_token_payload (a : Admin) : TokenPayload :=
  { sub := some a.username, type := none }

/-- Payload of a token issued at customer signup or login (`app/main.py`,
lines 198 and 230): `sub` is the email and `type` is `"customer"`. -/
def customer_token_payload (c : Customer) : TokenPayload :=
  { sub := some c.email, type := some "customer" }

/-! Concrete store fixtures used by counterexamples and witnesses. -/

/-- A ticket already completed, with `completed_at` set to time 5. -/
def t0 : Ticket := ⟨1, 7, 3, .completed, "normal", none, none, none, 0, 4, some 5⟩

/-- Store holding only `t0`. -/
def db0 : DBState := ⟨[t0], [], []⟩

/-- A ticket in the terminal status `delivered`. -/
def t1 : Ticket := ⟨1, 7, 3, .delivered, "normal", none, none, none, 0, 4, some 5⟩

/-- Store holding only `t1`. -/
def db1 : DBState := ⟨[t1], [], []⟩

/-- A ticket in the initial status `pending`. -/
def t2p : Ticket := ⟨1, 7, 3, .pending, "normal", none, none, none, 0, 4, none⟩

/-- Store holding only `t2p`. -/
def db2p : DBState := ⟨[t2p], [], []⟩

/-- An admin whose username collides with a customer email. -/
def eve_admin : Admin := ⟨1, "eve@x.com", "eve-admin@x.com", "h1", "Eve", 1⟩

/-- A customer whose email collides with an admin username. -/
def eve_customer : Customer := ⟨2, "Eve", "eve@x.com", "555", some "h2", 1⟩

/-- Identity store holding the colliding pair. -/
def authdb0 : AuthDB := ⟨[eve_admin], [eve_customer]⟩

/-- A deactivated admin (`is_active = 0`). -/
def mallory_admin : Admin := ⟨3, "mallory", "m@x.com", "h3", "Mallory", 0⟩

/-- A deactivated customer (`is_active = 0`). -/
def carol_customer : Customer := ⟨4, "Carol", "carol@x.com", "5", some "h4", 0⟩

/-- Identity store holding only deactivated principals. -/
def authdb2 : AuthDB := ⟨[mallory_admin], [carol_customer]⟩

/-- Empty identity store (every principal deleted). -/
def authdb3 : AuthDB := ⟨[], []⟩

/-! Helper lemmas shared by several claims. -/

theorem set_ticket_map_id (ts : List Ticket) (t2 : Ticket) :
    (set_ticket ts t2).map (fun t => t.ticket_id) = ts.map (fun t => t.ticket_id) := by
  induction ts with
  | nil => rfl
  | cons t ts ih =>
    simp only [set_ticket]
    by_cases h : t.ticket_id = t2.ticket_id
    · simp [h]
    · simp [h, ih]

theorem find_ticket_isSome (ts : List Ticket) (i : Nat) :
    (ts.find? (fun t => t.ticket_id == i)).isSome
      = (ts.map (fun t => t.ticket_id)).contains i := by
  induction ts with
  | nil => rfl
  | cons t ts ih =>
    by_cases h : t.ticket_id = i
    · simp [List.find?, h]
    · have hb : (t.ticket_id == i) = false := by simp [h]
      simp [List.find?, hb, h, ih]
      exact fun he => absurd he.symm h

theorem update_ticket_status_tickets_map (db : DBState) (i : Nat) (st : TicketStatus)
    (cb nt : Option String) (now : Nat) :
    (update_ticket_status db i st cb nt now).2.tickets.map (fun t => t.ticket_id)
      = db.tickets.map (fun t => t.ticket_id) := by
  simp only [update_ticket_status]
  cases hg : get_ticket db i with
  | none => rfl
  | some t =>
    simp only [create_ticket_history]
    split <;> simp [set_ticket_map_id]

theorem update_ticket_status_fst_isSome (db : DBState) (i : Nat) (st : TicketStatus)
    (cb nt : Option String) (now : Nat) :
    (update_ticket_status db i st cb nt now).1.isSome = (get_ticket db i).isSome := by
  simp only [update_ticket_status]
  cases hg : get_ticket db i <;> rfl

theorem bulk_update_ticket_status_count (ids : List Nat) :
    ∀ (db : DBState) (st : TicketStatus) (cb : Option String) (now : Nat),
    (bulk_update_ticket_status db ids st cb now).1
      = ids.countP (fun i => (db.tickets.map (fun t => t.ticket_id)).contains i) ∧
    (bulk_update_ticket_status db ids st cb now).2.tickets.map (fun t => t.ticket_id)
      = db.tickets.map (fun t => t.ticket_id) := by
  induction ids with
  | nil => exact fun db st cb now => ⟨rfl, rfl⟩
  | cons i rest ih =>
    intro db st cb now
    obtain ⟨ih1, ih2⟩ := ih (update_ticket_status db i st cb none now).2 st cb now
    simp only [bulk_update_ticket_status]
    constructor
    · rw [ih1, update_ticket_status_tickets_map, update_ticket_status_fst_isSome,
        get_ticket, find_ticket_isSome, List.countP_cons]
      exact Nat.add_comm _ _
    · rw [ih2, update_ticket_status_tickets_map]

theorem update_ticket_fst (db : DBState) (tid : Nat) (tu : TicketUpdate)
    (cb : Option String) (now : Nat) (t : Ticket) (ht : get_ticket db tid = some t) :
    (update_ticket db tid tu cb now).1 = some (apply_ticket_update t tu now) := by
  simp only [update_ticket, ht]

theorem update_ticket_history (db : DBState) (tid : Nat) (tu : TicketUpdate)
    (cb : Option String) (now : Nat) (t : Ticket) (ht : get_ticket db tid = some t) :
    (update_ticket db tid tu cb now).2.history =
      match tu.status with
      | some s =>
        if s = t.status then db.history
        else db.history ++
          [{ ticket_id := tid, old_status := some t.status, new_status := s,
             changed_by := orSystem cb, notes := tu.notes, changed_at := now }]
      | none => db.history := by
  simp only [update_ticket, ht, create_ticket_history]
  cases tu.status with
  | none => rfl
  | some s =>
    by_cases h : t.status = s
    · simp [h]
    · simp [h, Ne.symm h]

theorem update_ticket_notifications (db : DBState) (tid : Nat) (tu : TicketUpdate)
    (cb : Option String) (now : Nat) :
    (update_ticket db tid tu cb now).2.notifications = db.notifications := by
  simp only [update_ticket, create_ticket_history]
  cases hg : get_ticket db tid with
  | none => rfl
  | some t =>
    cases tu.status with
    | none => rfl
    | some s =>
      by_cases h : t.status = s
      · simp [h]
      · simp [h]

/-- Claim C1: `is_valid_status_transition` accepts exactly the identity
transitions and the edges of the fixed adjacency table enumerated by the
spec; identity transitions are valid for every status, including the two
terminal ones, and the terminal states have an empty allowed set. -/
theorem C1_transition_table : ∀ (c p : TicketStatus),
    (is_valid_status_transition c p = true ↔ (p = c ∨ p ∈ spec_adjacency c)) ∧
    is_valid_status_transition c c = true ∧
    spec_adjacency .delivered = [] ∧ spec_adjacency .cancelled = [] := by decide

/-- Claim C2, counterexample: a single-element bulk update aimed at a
ticket already in the terminal status `delivered` is not skipped: it is
counted (`updated_count = 1`, the claim demands 0) and the ticket status
is overwritten to `pending` (the claim demands it be left unchanged). -/
theorem C2_counterexample :
    t1.status = .delivered ∧
    (bulk_update_ticket_status db1 [1] .pending none 10).1 = 1 ∧
    (get_ticket (bulk_update_ticket_status db1 [1] .pending none 10).2 1).map Ticket.status
      = some .pending := by decide

/-- Claim C2 (amended): the bulk endpoint counts every id whose ticket
exists in the store (duplicates counted each time), with no transition
validation and no skipping of terminal-state or no-change tickets; only
ids that are not found are skipped and not counted.  `requested_count`
equals the number of ids requested. -/
theorem C2_bulk_update_counts : ∀ (db : DBState) (ids : List Nat) (st : TicketStatus)
    (cb : Option String) (now : Nat),
    (main_bulk_update_tickets db ids st cb now).1.updated_count
      = ids.countP (fun i => (db.tickets.map (fun t => t.ticket_id)).contains i) ∧
    (main_bulk_update_tickets db ids st cb now).1.requested_count = ids.length := by
  intro db ids st cb now
  exact ⟨(bulk_update_ticket_status_count ids db st cb now).1, rfl⟩

/-- Claim C3, counterexample: `t0` already has `completed_at = some 5`
(it reached `completed` earlier), yet a subsequent update to `delivered`
at time 10 overwrites `completed_at` to `some 10`; the claim says the
field is never overwritten once set. -/
theorem C3_counterexample :
    t0.completed_at = some 5 ∧
    ((update_ticket_status db0 1 .delivered none none 10).1.map Ticket.completed_at)
      = some (some 10) ∧ some (10 : Nat) ≠ some 5 := by decide

/-- Claim C3 (amended): on both update paths, `completed_at` is set to
the current time by every update whose new status is `completed` or
`delivered` (so it becomes non-null at the first such update and is
never reset to null, but a later such update, including `completed` to
`delivered` or a resubmission, overwrites it with a fresh timestamp);
updates to any other status leave it unchanged. -/
theorem C3_completed_at_amended :
    (∀ (db : DBState) (tid : Nat) (st : TicketStatus) (cb nt : Option String) (now : Nat)
       (t : Ticket), get_ticket db tid = some t →
       ((update_ticket_status db tid st cb nt now).1.map Ticket.completed_at)
         = some (if st = .completed ∨ st = .delivered then some now else t.completed_at)) ∧
    (∀ (db : DBState) (tid : Nat) (tu : TicketUpdate) (cb : Option String) (now : Nat)
       (t : Ticket), get_ticket db tid = some t →
       ((update_ticket db tid tu cb now).1.map Ticket.completed_at)
         = some (match tu.status with
             | some s => if s = .completed ∨ s = .delivered then some now else t.completed_at
             | none => t.completed_at)) := by
  constructor
  · intro db tid st cb nt now t ht
    simp only [update_ticket_status, ht, Option.map]
  · intro db tid tu cb now t ht
    rw [update_ticket_fst db tid tu cb now t ht]
    cases htu : tu.status <;> simp [apply_ticket_update, htu]

/-- Witness for C3 (amended): a delivered update at time 10 overwrites
`completed_at` to `some 10`; a `diagnosed` update leaves it `none`. -/
theorem C3_completed_at_witness :
    ((update_ticket_status db0 1 .delivered none none 10).1.map Ticket.completed_at)
      = some (some 10) ∧
    ((update_ticket db2p 1 ⟨some .diagnosed, none, none, none, none⟩ none 9).1.map
       Ticket.completed_at) = some none :=
  ⟨(C3_completed_at_amended.1 db0 1 .delivered none none 10 t0 rfl).trans (by decide),
   (C3_completed_at_amended.2 db2p 1 ⟨some .diagnosed, none, none, none, none⟩ none 9
      t2p rfl).trans (by decide)⟩

/-- Claim C4: one `update_ticket` call appends exactly one history row
(the prior status as old, the requested status as new, the actor run
through the `or "system"` default, and the optional note) when the
requested status differs from the current one, and zero rows when the
requested status equals the current one or no status is provided. -/
theorem C4_history_rows : ∀ (db : DBState) (tid : Nat) (tu : TicketUpdate)
    (cb : Option String) (now : Nat) (t : Ticket), get_ticket db tid = some t →
    (update_ticket db tid tu cb now).2.history =
      match tu.status with
      | some s =>
        if s = t.status then db.history
        else db.history ++
          [{ ticket_id := tid, old_status := some t.status, new_status := s,
             changed_by := orSystem cb, notes := tu.notes, changed_at := now }]
      | none => db.history :=
  fun db tid tu cb now t ht => update_ticket_history db tid tu cb now t ht

/-- Witness for C4: updating a pending ticket to diagnosed with actor
alice and a note appends exactly that one history row. -/
theorem C4_history_rows_witness :
    (update_ticket db2p 1 ⟨some .diagnosed, none, none, none, some "checked"⟩
        (some "alice") 9).2.history
      = [{ ticket_id := 1, old_status := some .pending, new_status := .diagnosed,
           changed_by := "alice", notes := some "checked", changed_at := 9 }] := by
  rw [C4_history_rows db2p 1 ⟨some .diagnosed, none, none, none, some "checked"⟩
    (some "alice") 9 t2p rfl]
  rfl

/-- Claim C5: a validated update through the PATCH handler that changes
the status creates exactly one notification for the ticket owner,
unread, with the exact message text; an update that does not change the
status (same status resubmitted, or no status provided) creates none. -/
theorem C5_notification : ∀ (db : DBState) (tid : Nat) (tu : TicketUpdate) (now : Nat)
    (t : Ticket), get_ticket db tid = some t →
    (∀ s, tu.status = some s → validate_status_transition t.status s = none) →
    (∀ p, tu.priority = some p → validate_priority p = true) →
    (main_update_ticket db tid tu now).2.notifications =
      match tu.status with
      | some s =>
        if s = t.status then db.notifications
        else db.notifications ++
          [{ customer_id := t.customer_id, ticket_id := tid,
             message := "Your ticket #" ++ toString tid ++
               " status has been updated from \x27" ++ t.status.value ++
               "\x27 to \x27" ++ s.value ++ "\x27.", is_read := 0, created_at := now }]
      | none => db.notifications := by
  intro db tid tu now t ht hs hp
  have hfst := update_ticket_fst db tid tu none now t ht
  have hnot := update_ticket_notifications db tid tu none now
  simp only [main_update_ticket, ht]
  cases htu : tu.status with
  | none =>
    cases htp : tu.priority with
    | none => simp [htu, htp, hfst, hnot]
    | some p => simp [htu, htp, hp p htp, hfst, hnot]
  | some s =>
    have hv := hs s htu
    by_cases hss : s = t.status
    · subst hss
      cases htp : tu.priority with
      | none => simp [htu, htp, hv, hfst, hnot]
      | some p => simp [htu, htp, hv, hp p htp, hfst, hnot]
    · cases htp : tu.priority with
      | none => simp [htu, htp, hv, hfst, hnot, hss, Ne.symm hss, apply_ticket_update]
      | some p =>
        simp [htu, htp, hv, hp p htp, hfst, hnot, hss, Ne.symm hss, apply_ticket_update]

/-- Witness for C5: updating the pending ticket of `db2p` to diagnosed
creates exactly one unread notification with the exact message. -/
theorem C5_notification_witness :
    (main_update_ticket db2p 1 ⟨some .diagnosed, none, none, none, none⟩ 9).2.notifications
      = [{ customer_id := 7, ticket_id := 1,
           message :=
             "Your ticket #1 status has been updated from \x27pending\x27 to \x27diagnosed\x27.",
           is_read := 0, created_at := 9 }] :=
  (C5_notification db2p 1 ⟨some .diagnosed, none, none, none, none⟩ 9 t2p rfl
    (fun s hsx => by
      obtain rfl : TicketStatus.diagnosed = s := Option.some.inj hsx
      rfl)
    (fun p hpx => Option.noConfusion hpx)).trans (by decide)

/-- Claim C8: whenever the PATCH handler rejects a request (ticket not
found, invalid status transition, or invalid priority), the store is
returned unchanged: no ticket field mutation, no history row, no
notification. -/
theorem C8_no_mutation_on_rejection : ∀ (db : DBState) (tid : Nat) (tu : TicketUpdate)
    (now : Nat), (main_update_ticket db tid tu now).1.isOk = false →
    (main_update_ticket db tid tu now).2 = db := by
  intro db tid tu now
  cases ht : get_ticket db tid with
  | none => intro h; simp [main_update_ticket, ht]
  | some t =>
    have hfst := update_ticket_fst db tid tu none now t ht
    intro h
    simp only [main_update_ticket, ht] at h ⊢
    cases hte : (match tu.status with
      | some s => validate_status_transition t.status s
      | none => none : Option String) with
    | some err => simp [hte]
    | none =>
      simp only [hte] at h ⊢
      by_cases hpr : (match tu.priority with
        | some p => validate_priority p
        | none => true : Bool) = true
      · cases htu : tu.status with
        | none => simp [hpr, hfst, htu, Except.isOk, Except.toBool] at h
        | some s =>
          by_cases hss : s ≠ t.status
          · simp [hpr, hfst, htu, hss, Except.isOk, Except.toBool] at h
          · simp [hpr, hfst, htu, hss, Except.isOk, Except.toBool] at h
      · simp [hpr]

/-- Witness for C8: asking to move the delivered ticket of `db1` back to
pending is rejected and leaves the store untouched. -/
theorem C8_no_mutation_witness :
    (main_update_ticket db1 1 ⟨some .pending, none, none, none, none⟩ 10).2 = db1 :=
  C8_no_mutation_on_rejection db1 1 ⟨some .pending, none, none, none, none⟩ 10 (by decide)

/-- Claim C9: a rejected status change from a terminal state (delivered
or cancelled) yields the final-state message, and any other rejected
transition yields the message naming the attempted transition and
listing the full set of valid next statuses of the current status. -/
theorem C9_rejection_messages : ∀ (c n : TicketStatus),
    ((c = .delivered ∨ c = .cancelled) → n ≠ c →
      validate_status_transition c n =
        some ("Ticket in \x27" ++ c.value ++ "\x27 status cannot be changed (final state)")) ∧
    (¬ (c = .delivered ∨ c = .cancelled) → is_valid_status_transition c n = false →
      validate_status_transition c n =
        some ("Cannot transition from \x27" ++ c.value ++ "\x27 to \x27" ++
          n.value ++ "\x27. Valid next statuses: " ++
          String.intercalate ", " ((get_valid_next_statuses c).map TicketStatus.value))) := by
  decide

/-- Witness for C9: the two message shapes at concrete rejected
transitions. -/
theorem C9_rejection_messages_witness :
    validate_status_transition .delivered .pending
      = some ("Ticket in \x27" ++ TicketStatus.delivered.value ++
          "\x27 status cannot be changed (final state)") ∧
    validate_status_transition .pending .completed
      = some ("Cannot transition from \x27" ++ TicketStatus.pending.value ++ "\x27 to \x27" ++
          TicketStatus.completed.value ++ "\x27. Valid next statuses: " ++
          String.intercalate ", " ((get_valid_next_statuses .pending).map TicketStatus.value)) :=
  ⟨(C9_rejection_messages .delivered .pending).1 (Or.inl rfl) (by decide),
   (C9_rejection_messages .pending .completed).2 (by decide) (by decide)⟩

/-- Claim C6, counterexample: the claim fails when an admin username
equals a customer email.  The token issued to `eve_customer` resolves at
the admin gate to `eve_admin` (the admin gate never reads the `type`
claim), and the token issued to `eve_admin` resolves at the customer
gate to `eve_customer` (a missing `type` claim defaults to customer). -/
theorem C6_counterexample :
    get_current_admin authdb0 (some (customer_token_payload eve_customer)) = .ok eve_admin ∧
    get_current_customer authdb0 (some (admin_token_payload eve_admin)) = .ok eve_customer :=
  ⟨rfl, rfl⟩

/-- Claim C6 (amended): a customer token is rejected by the admin gate
unless some admin has the customer email as username, and an admin
token is rejected by the customer gate unless some customer has the
admin username as email; with no such subject-string collision in the
store, wrong-kind tokens are rejected. -/
theorem C6_kind_gate_amended : ∀ (db : AuthDB) (c : Customer) (a : Admin),
    (db.admins.find? (fun x => x.username == c.email) = none →
      get_current_admin db (some (customer_token_payload c)) = .error credentials_exception) ∧
    (db.customers.find? (fun x => x.email == a.username) = none →
      get_current_customer db (some (admin_token_payload a)) = .error credentials_exception) := by
  intro db c a
  constructor
  · intro h
    simp [get_current_admin, customer_token_payload, h]
  · intro h
    simp [get_current_customer, admin_token_payload, h]

/-- Witness for C6 (amended): in the empty store both wrong-kind tokens
are rejected. -/
theorem C6_kind_gate_witness :
    get_current_admin authdb3 (some (customer_token_payload eve_customer))
      = .error credentials_exception ∧
    get_current_customer authdb3 (some (admin_token_payload eve_admin))
      = .error credentials_exception :=
  ⟨(C6_kind_gate_amended authdb3 eve_customer eve_admin).1 rfl,
   (C6_kind_gate_amended authdb3 eve_customer eve_admin).2 rfl⟩

/-- Claim C7, counterexample: both resolvers accept tokens of principals
whose active flag has been cleared: deactivation does not take effect on
the next request, contrary to the claim. -/
theorem C7_counterexample :
    mallory_admin.is_active = 0 ∧
    get_current_admin authdb2 (some (admin_token_payload mallory_admin)) = .ok mallory_admin ∧
    carol_customer.is_active = 0 ∧
    get_current_customer authdb2 (some (customer_token_payload carol_customer))
      = .ok carol_customer :=
  ⟨rfl, rfl, rfl, rfl⟩

/-- Claim C7 (amended): token resolution re-reads the embedded subject
from the store at call time, so a deleted principal is rejected on the
next request; but the active flag is not consulted at resolution, so a
merely deactivated principal is still accepted (whatever its
`is_active` value). -/
theorem C7_resolution_amended : ∀ (db : AuthDB) (u e : String),
    (db.admins.find? (fun a => a.username == u) = none →
      get_current_admin db (some { sub := some u, type := none })
        = .error credentials_exception) ∧
    (∀ a : Admin, db.admins.find? (fun x => x.username == u) = some a →
      get_current_admin db (some { sub := some u, type := none }) = .ok a) ∧
    (db.customers.find? (fun c => c.email == e) = none →
      get_current_customer db (some { sub := some e, type := some "customer" })
        = .error credentials_exception) ∧
    (∀ c : Customer, db.customers.find? (fun x => x.email == e) = some c →
      get_current_customer db (some { sub := some e, type := some "customer" }) = .ok c) := by
  intro db u e
  refine ⟨fun h => ?_, fun a h => ?_, fun h => ?_, fun c h => ?_⟩ <;>
    simp [get_current_admin, get_current_customer, h]

/-- Witness for C7 (amended): deleted subjects are rejected; present
subjects resolve even when deactivated. -/
theorem C7_resolution_witness :
    get_current_admin authdb3 (some { sub := some "mallory", type := none })
      = .error credentials_exception ∧
    get_current_admin authdb2 (some { sub := some "mallory", type := none })
      = .ok mallory_admin ∧
    get_current_customer authdb3 (some { sub := some "carol@x.com", type := some "customer" })
      = .error credentials_exception ∧
    get_current_customer authdb2 (some { sub := some "carol@x.com", type := some "customer" })
      = .ok carol_customer :=
  ⟨(C7_resolution_amended authdb3 "mallory" "carol@x.com").1 rfl,
   (C7_resolution_amended authdb2 "mallory" "carol@x.com").2.1 mallory_admin rfl,
   (C7_resolution_amended authdb3 "mallory" "carol@x.com").2.2.1 rfl,
   (C7_resolution_amended authdb2 "mallory" "carol@x.com").2.2.2 carol_customer rfl⟩

/-- Claim C10: the bulk response success flag is true exactly when
`updated_count` is positive, which happens exactly when at least one
requested id exists in the store. -/
theorem C10_success_flag : ∀ (db : DBState) (ids : List Nat) (st : TicketStatus)
    (cb : Option String) (now : Nat),
    ((main_bulk_update_tickets db ids st cb now).1.success
       = decide (0 < (main_bulk_update_tickets db ids st cb now).1.updated_count)) ∧
    ((main_bulk_update_tickets db ids st cb now).1.success = true ↔
       ∃ i ∈ ids, (db.tickets.map (fun t => t.ticket_id)).contains i = true) := by
  intro db ids st cb now
  refine ⟨rfl, ?_⟩
  have h := (bulk_update_ticket_status_count ids db st cb now).1
  show decide (0 < (bulk_update_ticket_status db ids st cb now).1) = true ↔ _
  rw [h]
  simp [List.countP_pos_iff]
